import Mathlib

/-!
Shallow embedding of the poster-layout compositor (Sanskhit_Design).

The repository holds two near-duplicate copies of the application in
`src/index.tsx`: a simplified copy (lines 1-317) and a full copy
(lines 319-973).  Definitions suffixed `Simple` embed the simplified copy;
definitions suffixed `Full` embed the full copy.  Numeric values are
modelled as exact rationals; `ctx.measureText` is an abstract parameter
`measure : FontSpec → String → ℚ` (font, then text); loaded images are
`Option Img` (the refs only ever hold complete images, so the
`img?.complete` guard is presence of the option).
-/

namespace Sanskhit

/-- JavaScript `Math.round`: round to nearest, ties toward +∞,
i.e. `⌊x + 1/2⌋`. -/
def jsRound (q : ℚ) : ℤ := ⌊q + 1/2⌋

/-- `const SNAP_SIZE = 2` (src/index.tsx line 55). -/
def SNAP_SIZE : ℚ := 2

/-- `interface ElementPos` (src/index.tsx lines 14-21): position in
percentage space, scale multiplier, visibility, optional style flags. -/
structure ElementPos where
  x : ℚ
  y : ℚ
  scale : ℚ
  visible : Bool
  bold : Bool := false
  italic : Bool := false
  deriving DecidableEq, Repr

/-- `enum AspectRatio` (src/types.ts lines 2-7). -/
inductive AspectRatio where
  | SQUARE
  | STORY
  | LANDSCAPE
  | LINKEDIN
  deriving DecidableEq, Repr

/-- The string literal carried by each enum member. -/
def AspectRatio.str : AspectRatio → String
  | .SQUARE => "1:1"
  | .STORY => "9:16"
  | .LANDSCAPE => "16:9"
  | .LINKEDIN => "4:3"

/-- The eight positionable elements (the `pos*` keys of `PosterConfig`). -/
inductive ElemKey where
  | posLogo
  | posBrand
  | posEventName
  | posBadges
  | posHeadline
  | posSubHeadline
  | posCTA
  | posQR
  deriving DecidableEq, Repr

/-- `interface PosterConfig` (src/index.tsx lines 23-52 / src/types.ts). -/
structure PosterConfig where
  aspectRatio : AspectRatio
  theme : String
  brandName : String
  eventName : String
  duration : String
  price : String
  headline : String
  subHeadline : String
  ctaText : String
  logoUrl : String
  qrUrl : Option String
  colorBrand : String
  colorEvent : String
  colorHeadline : String
  colorSubHeadline : String
  colorCTA : String
  bgColorCTA : String
  colorBadges : String
  bgColorBadge1 : String
  bgColorBadge2 : String
  posLogo : ElementPos
  posBrand : ElementPos
  posEventName : ElementPos
  posBadges : ElementPos
  posHeadline : ElementPos
  posSubHeadline : ElementPos
  posCTA : ElementPos
  posQR : ElementPos
  deriving DecidableEq, Repr

/-- Dynamic key lookup `config[key]` restricted to the `pos*` keys. -/
def getPos (cfg : PosterConfig) : ElemKey → ElementPos
  | .posLogo => cfg.posLogo
  | .posBrand => cfg.posBrand
  | .posEventName => cfg.posEventName
  | .posBadges => cfg.posBadges
  | .posHeadline => cfg.posHeadline
  | .posSubHeadline => cfg.posSubHeadline
  | .posCTA => cfg.posCTA
  | .posQR => cfg.posQR

/-- The spread update `{ ...prev, [key]: p }` for a `pos*` key. -/
def setPos (cfg : PosterConfig) (k : ElemKey) (p : ElementPos) : PosterConfig :=
  match k with
  | .posLogo => { cfg with posLogo := p }
  | .posBrand => { cfg with posBrand := p }
  | .posEventName => { cfg with posEventName := p }
  | .posBadges => { cfg with posBadges := p }
  | .posHeadline => { cfg with posHeadline := p }
  | .posSubHeadline => { cfg with posSubHeadline := p }
  | .posCTA => { cfg with posCTA := p }
  | .posQR => { cfg with posQR := p }

/-- JavaScript `String.prototype.split` with a one-character separator,
on the underlying character list: split at every occurrence of `sep`
(an empty input yields one empty field, as in JS). -/
def splitChars (sep : Char) : List Char → List (List Char)
  | [] => [[]]
  | c :: cs =>
    let rest := splitChars sep cs
    if c = sep then [] :: rest
    else match rest with
      | l :: ls => (c :: l) :: ls
      | [] => [[c]]

/-- `s.split(sep)` for a one-character separator string. -/
def strSplit (s : String) (sep : Char) : List String :=
  (splitChars sep s.data).map String.mk

/-- `Number(s)` on the digit substrings produced by splitting the
aspect-ratio literals (these are all plain decimal numerals, on which
`Number` is this base-10 fold). -/
def numFromStr (s : String) : ℚ :=
  ((s.data.foldl (fun n c => n * 10 + (c.toNat - 48)) 0 : ℕ) : ℚ)

/-- `const [wRatio, hRatio] = config.aspectRatio.split(':').map(Number)`
(src/index.tsx lines 127 and 468). -/
def ratioParts (r : AspectRatio) : ℚ × ℚ :=
  match (strSplit r.str ':') with
  | a :: b :: _ => (numFromStr a, numFromStr b)
  | _ => (0, 0)

/-- `canvas.width = 1080` (src/index.tsx lines 128 and 469). -/
def canvasWidth : ℚ := 1080

/-- `canvas.height = (1080 / wRatio) * hRatio` (src/index.tsx lines 129
and 470). -/
def canvasHeight (r : AspectRatio) : ℚ :=
  (1080 / (ratioParts r).1) * (ratioParts r).2

/-- `const px = (pct) => (pct / 100) * canvas.width` (lines 131 and 472). -/
def px (pct : ℚ) : ℚ := (pct / 100) * canvasWidth

/-- `const py = (pct) => (pct / 100) * canvas.height` (lines 132 and 473). -/
def py (r : AspectRatio) (pct : ℚ) : ℚ := (pct / 100) * canvasHeight r

/-- Drag state `{key, offsetX, offsetY}` (src/index.tsx lines 113 and
323-327). -/
structure DragState where
  key : ElemKey
  offsetX : ℚ
  offsetY : ℚ
  deriving DecidableEq, Repr

/-- Snap of one axis in the simplified copy's `handleMouseMove`
(src/index.tsx lines 235-236):
`Math.round(v / SNAP_SIZE) * SNAP_SIZE`. -/
def snapAxis (v : ℚ) : ℚ := (jsRound (v / SNAP_SIZE) : ℚ) * SNAP_SIZE

/-- Simplified copy's `handleMouseMove` (src/index.tsx lines 229-242):
snap each axis of (pointer − offset) to the 2-unit grid; no clamping. -/
def handleMouseMoveSimple (cfg : PosterConfig) (drag : DragState)
    (pointer : ℚ × ℚ) : PosterConfig :=
  let newX := snapAxis (pointer.1 - drag.offsetX)
  let newY := snapAxis (pointer.2 - drag.offsetY)
  setPos cfg drag.key { getPos cfg drag.key with x := newX, y := newY }

/-- Clamp of one axis in the full copy's `handleMouseMove`
(src/index.tsx lines 439-440): `Math.max(0, Math.min(100, v))`. -/
def clampAxis (v : ℚ) : ℚ := max 0 (min 100 v)

/-- Full copy's `handleMouseMove` (src/index.tsx lines 431-443):
clamp each axis of (pointer − offset) into [0,100]; no snapping. -/
def handleMouseMoveFull (cfg : PosterConfig) (drag : DragState)
    (pointer : ℚ × ℚ) : PosterConfig :=
  let newX := clampAxis (pointer.1 - drag.offsetX)
  let newY := clampAxis (pointer.2 - drag.offsetY)
  setPos cfg drag.key { getPos cfg drag.key with x := newX, y := newY }

/-- The full copy's initial `PosterConfig` (src/index.tsx lines 330-359). -/
def defaultConfigFull : PosterConfig where
  aspectRatio := .STORY
  theme := "Futuristic Dubai skyline, sunset, ultra high tech bridge, glowing nodes, 8k professional render"
  brandName := "Aaiena"
  eventName := "Dubai Bridge Showcase"
  duration := "22nd - 29th Dec"
  price := "Dubai Bridge"
  headline := "Master AI Tools Today"
  subHeadline := "Join our comprehensive workshop to boost your productivity 10x with AI."
  ctaText := "Sign Up Now"
  logoUrl := "https://aaiena.com/wp-content/uploads/2023/12/aaiena-logo-01.png"
  qrUrl := none
  colorBrand := "#ffffff"
  colorEvent := "#3b82f6"
  colorHeadline := "#ffffff"
  colorSubHeadline := "#e2e8f0"
  colorCTA := "#ffffff"
  bgColorCTA := "#2563eb"
  colorBadges := "#ffffff"
  bgColorBadge1 := "rgba(0, 0, 0, 0.6)"
  bgColorBadge2 := "rgba(37, 99, 235, 0.6)"
  posLogo := { x := 5, y := 5, scale := 1, visible := true }
  posBrand := { x := 50, y := 10, scale := 1, visible := true }
  posEventName := { x := 50, y := 62, scale := 1, visible := true }
  posBadges := { x := 5, y := 15, scale := 1, visible := true }
  posHeadline := { x := 50, y := 70, scale := 1, visible := true }
  posSubHeadline := { x := 50, y := 78, scale := 1, visible := true }
  posCTA := { x := 50, y := 90, scale := 1, visible := true }
  posQR := { x := 85, y := 85, scale := 1, visible := false }

/-- A `ctx.font` value: the weight/style prefix of the CSS string and the
pixel size (the trailing "px Inter" is common to every font the app sets). -/
structure FontSpec where
  weight : String
  size : ℚ
  deriving DecidableEq, Repr

/-- `getFont` of the simplified copy (src/index.tsx lines 143-145). -/
def getFont (pos : ElementPos) (size : ℚ) : FontSpec :=
  { weight := (if pos.italic then "italic " else "") ++
      (if pos.bold then "bold " else ""),
    size := canvasWidth * size * pos.scale }

/-- Which loaded-image slot a `drawImage` call reads. -/
inductive ImgSlot where
  | bg
  | logo
  | qr
  deriving DecidableEq, Repr

/-- A loaded, complete image: its natural pixel dimensions. -/
structure Img where
  w : ℚ
  h : ℚ
  deriving DecidableEq, Repr

/-- One canvas-2D draw call, with the relevant `ctx` state (fill style,
font, text alignment, shadow blur) recorded at the moment of the call. -/
inductive DrawOp where
  | clearRect (x y w h : ℚ)
  | fillRect (style : String) (x y w h : ℚ)
  | gradientRect (stops : List (ℚ × String)) (x0 y0 x1 y1 : ℚ) (x y w h : ℚ)
  | drawImage (slot : ImgSlot) (x y w h : ℚ)
  | roundRect (style : String) (x y w h r : ℚ)
  | fillText (style : String) (font : FontSpec) (align : String)
      (shadowBlur : ℚ) (text : String) (x y : ℚ)
  deriving DecidableEq, Repr

/-- Which element a draw call belongs to (the guard block it sits in). -/
inductive Tag where
  | background
  | logo
  | brand
  | eventName
  | badges
  | headline
  | subHeadline
  | qr
  | cta
  deriving DecidableEq, Repr

/-- The tag of each positionable element's draw block. -/
def tagOf : ElemKey → Tag
  | .posLogo => .logo
  | .posBrand => .brand
  | .posEventName => .eventName
  | .posBadges => .badges
  | .posHeadline => .headline
  | .posSubHeadline => .subHeadline
  | .posCTA => .cta
  | .posQR => .qr

/-- The loop body of `wrapText` (src/index.tsx lines 449-458), with the
final `ctx.fillText(line, x, curY)` of line 459 as the base case.
`measureLine` is `ctx.measureText` under the font active at the call.
Output: the emitted `(line, curY)` pairs in order. -/
def wrapLoop (measureLine : String → ℚ) (maxWidth lineHeight : ℚ) :
    List String → ℕ → String → ℚ → List (String × ℚ)
  | [], _, line, curY => [(line, curY)]
  | w :: ws, n, line, curY =>
    -- the inlined testLine of line 450 is line, then the word, then a space
    if measureLine (line ++ w ++ " ") > maxWidth ∧ 0 < n then
      (line, curY) ::
        wrapLoop measureLine maxWidth lineHeight ws (n + 1) (w ++ " ")
          (curY + lineHeight)
    else
      wrapLoop measureLine maxWidth lineHeight ws (n + 1) (line ++ w ++ " ") curY

/-- `wrapText` (src/index.tsx lines 445-460): greedy word wrap of
`text.split(' ')`, emitting `fillText(line, x, curY)` calls. -/
def wrapText (measureLine : String → ℚ) (text : String) (x y maxWidth lineHeight : ℚ) :
    List (String × ℚ × ℚ) :=
  (wrapLoop measureLine maxWidth lineHeight (strSplit text ' ') 0 "" y).map
    (fun p => (p.1, x, p.2))

/-- Tags every draw call of one element's guard block with that
element's tag. -/
def tagOps (t : Tag) (l : List DrawOp) : List (Tag × DrawOp) :=
  l.map (Prod.mk t)

/-- Background block of the full copy's `drawCanvas`
(src/index.tsx lines 477-485): stretch-fit image, else the two-stop
vertical gradient. -/
def bgOpsFull (r : AspectRatio) (bg : Option Img) : List (Tag × DrawOp) :=
  tagOps .background <|
    match bg with
    | some _ => [.drawImage .bg 0 0 canvasWidth (canvasHeight r)]
    | none =>
      [.gradientRect [(0, "#0f172a"), (1, "#020617")] 0 0 0 (canvasHeight r)
        0 0 canvasWidth (canvasHeight r)]

/-- Logo block of the full copy (src/index.tsx lines 487-491). -/
def logoOpsFull (cfg : PosterConfig) (logo : Option Img) : List (Tag × DrawOp) :=
  tagOps .logo <|
    if cfg.posLogo.visible then
      match logo with
      | some img =>
        let lw := (canvasWidth * 0.18) * cfg.posLogo.scale
        let lh := (img.h / img.w) * lw
        [.drawImage .logo (px cfg.posLogo.x)
          (py cfg.aspectRatio cfg.posLogo.y) lw lh]
      | none => []
    else []

/-- Brand block of the full copy (src/index.tsx lines 493-498). -/
def brandOpsFull (cfg : PosterConfig) : List (Tag × DrawOp) :=
  tagOps .brand <|
    if cfg.posBrand.visible then
      [.fillText cfg.colorBrand
        ⟨"bold ", canvasWidth * 0.04 * cfg.posBrand.scale⟩ "center" 0
        cfg.brandName.toUpper (px cfg.posBrand.x)
        (py cfg.aspectRatio cfg.posBrand.y)]
    else []

/-- Event-name block of the full copy (src/index.tsx lines 500-505). -/
def eventNameOpsFull (cfg : PosterConfig) : List (Tag × DrawOp) :=
  tagOps .eventName <|
    if cfg.posEventName.visible then
      [.fillText cfg.colorEvent
        ⟨"bold ", canvasWidth * 0.03 * cfg.posEventName.scale⟩ "center" 0
        cfg.eventName.toUpper (px cfg.posEventName.x)
        (py cfg.aspectRatio cfg.posEventName.y)]
    else []

/-- The badge font `600 ${canvas.width * 0.026 * scale}px Inter`
(src/index.tsx line 510). -/
def badgeFont (scale : ℚ) : FontSpec := ⟨"600 ", canvasWidth * 0.026 * scale⟩

/-- A rounded-rectangle geometry as passed to `ctx.roundRect`. -/
structure RectSpec where
  x : ℚ
  y : ℚ
  w : ℚ
  h : ℚ
  rad : ℚ
  deriving DecidableEq, Repr

/-- First badge box (src/index.tsx lines 515-517): width is the measured
`duration` text plus 34, height `0.055·W·scale`, radius `10·scale`. -/
def badge1Rect (measure : FontSpec → String → ℚ) (cfg : PosterConfig) : RectSpec :=
  let scale := cfg.posBadges.scale
  let dW := measure (badgeFont scale) cfg.duration + 34
  let bH := canvasWidth * 0.055 * scale
  ⟨px cfg.posBadges.x, py cfg.aspectRatio cfg.posBadges.y, dW, bH, 10 * scale⟩

/-- Second badge box (src/index.tsx lines 521-522): placed at
`px(x) + dW + 15·scale`, width measured `price` text plus 34. -/
def badge2Rect (measure : FontSpec → String → ℚ) (cfg : PosterConfig) : RectSpec :=
  let scale := cfg.posBadges.scale
  let dW := measure (badgeFont scale) cfg.duration + 34
  let pW := measure (badgeFont scale) cfg.price + 34
  let bH := canvasWidth * 0.055 * scale
  ⟨px cfg.posBadges.x + dW + 15 * scale, py cfg.aspectRatio cfg.posBadges.y,
    pW, bH, 10 * scale⟩

/-- Badges block of the full copy (src/index.tsx lines 507-524). -/
def badgesOpsFull (measure : FontSpec → String → ℚ) (cfg : PosterConfig) :
    List (Tag × DrawOp) :=
  tagOps .badges <|
    if cfg.posBadges.visible then
      let scale := cfg.posBadges.scale
      let font := badgeFont scale
      let dW := measure font cfg.duration + 34
      let bH := canvasWidth * 0.055 * scale
      let pW := measure font cfg.price + 34
      [.roundRect cfg.bgColorBadge1 (px cfg.posBadges.x)
        (py cfg.aspectRatio cfg.posBadges.y) dW bH (10 * scale),
       .fillText cfg.colorBadges font "left" 0 cfg.duration
        (px cfg.posBadges.x + 17 * scale)
        (py cfg.aspectRatio cfg.posBadges.y + bH / 2 + 10 * scale),
       .roundRect cfg.bgColorBadge2
        (px cfg.posBadges.x + dW + 15 * scale)
        (py cfg.aspectRatio cfg.posBadges.y) pW bH (10 * scale),
       .fillText cfg.colorBadges font "left" 0 cfg.price
        (px cfg.posBadges.x + dW + 32 * scale)
        (py cfg.aspectRatio cfg.posBadges.y + bH / 2 + 10 * scale)]
    else []

/-- Headline block of the full copy (src/index.tsx lines 526-533): the
shadow (`shadowBlur = 20`) is set right before the fill and reset after,
so the headline text op always carries it. -/
def headlineOpsFull (cfg : PosterConfig) : List (Tag × DrawOp) :=
  tagOps .headline <|
    if cfg.posHeadline.visible then
      [.fillText cfg.colorHeadline
        ⟨"900 ", canvasWidth * 0.08 * cfg.posHeadline.scale⟩ "center" 20
        cfg.headline (px cfg.posHeadline.x)
        (py cfg.aspectRatio cfg.posHeadline.y)]
    else []

/-- The sub-headline font `500 ${canvas.width * 0.038 * scale}px Inter`
(src/index.tsx line 539). -/
def subFont (scale : ℚ) : FontSpec := ⟨"500 ", canvasWidth * 0.038 * scale⟩

/-- Sub-headline block of the full copy (src/index.tsx lines 535-541):
`wrapText(ctx, subHeadline, px(x), py(y), W·0.85, W·0.055·scale)`. -/
def subHeadlineOpsFull (measure : FontSpec → String → ℚ) (cfg : PosterConfig) :
    List (Tag × DrawOp) :=
  tagOps .subHeadline <|
    if cfg.posSubHeadline.visible then
      let scale := cfg.posSubHeadline.scale
      (wrapText (measure (subFont scale)) cfg.subHeadline
          (px cfg.posSubHeadline.x) (py cfg.aspectRatio cfg.posSubHeadline.y)
          (canvasWidth * 0.85) (canvasWidth * 0.055 * scale)).map
        (fun t => .fillText cfg.colorSubHeadline (subFont scale)
          "center" 0 t.1 t.2.1 t.2.2)
    else []

/-- QR block of the full copy (src/index.tsx lines 543-548). -/
def qrOpsFull (cfg : PosterConfig) (qrImg : Option Img) : List (Tag × DrawOp) :=
  tagOps .qr <|
    if cfg.posQR.visible then
      match qrImg with
      | some _ =>
        let s := cfg.posQR.scale
        let qw := (canvasWidth * 0.14) * s
        [.fillRect "white" (px cfg.posQR.x - 6 * s)
          (py cfg.aspectRatio cfg.posQR.y - 6 * s) (qw + 12 * s) (qw + 12 * s),
         .drawImage .qr (px cfg.posQR.x) (py cfg.aspectRatio cfg.posQR.y)
          qw qw]
      | none => []
    else []

/-- CTA block of the full copy (src/index.tsx lines 550-561). -/
def ctaOpsFull (measure : FontSpec → String → ℚ) (cfg : PosterConfig) :
    List (Tag × DrawOp) :=
  tagOps .cta <|
    if cfg.posCTA.visible then
      let scale := cfg.posCTA.scale
      let font : FontSpec := ⟨"900 ", canvasWidth * 0.045 * scale⟩
      let txt := cfg.ctaText.toUpper
      let cW := measure font txt + 80
      let cH := (canvasWidth * 0.11) * scale
      [.roundRect cfg.bgColorCTA (px cfg.posCTA.x - cW / 2)
        (py cfg.aspectRatio cfg.posCTA.y) cW cH (20 * scale),
       .fillText cfg.colorCTA font "center" 0 txt (px cfg.posCTA.x)
        (py cfg.aspectRatio cfg.posCTA.y + cH / 2 + 12 * scale)]
    else []

/-- The full copy's `drawCanvas` (src/index.tsx lines 462-562): clear,
background, then each visible element in the fixed draw order. -/
def drawCanvasFull (measure : FontSpec → String → ℚ) (cfg : PosterConfig)
    (bg logo qrImg : Option Img) : List (Tag × DrawOp) :=
  (.background, .clearRect 0 0 canvasWidth (canvasHeight cfg.aspectRatio)) ::
    bgOpsFull cfg.aspectRatio bg ++ logoOpsFull cfg logo ++ brandOpsFull cfg ++
    eventNameOpsFull cfg ++ badgesOpsFull measure cfg ++ headlineOpsFull cfg ++
    subHeadlineOpsFull measure cfg ++ qrOpsFull cfg qrImg ++ ctaOpsFull measure cfg

/-- Background of the simplified copy's `drawCanvas` (src/index.tsx
lines 134-140): stretch-fit image, else a solid `#020617` fill. -/
def bgOpsSimple (r : AspectRatio) (bg : Option Img) : List (Tag × DrawOp) :=
  tagOps .background <|
    match bg with
    | some _ => [.drawImage .bg 0 0 canvasWidth (canvasHeight r)]
    | none => [.fillRect "#020617" 0 0 canvasWidth (canvasHeight r)]

/-- Brand block of the simplified copy (src/index.tsx lines 150-155). -/
def brandOpsSimple (cfg : PosterConfig) : List (Tag × DrawOp) :=
  tagOps .brand <|
    if cfg.posBrand.visible then
      [.fillText cfg.colorBrand (getFont cfg.posBrand 0.04) "center" 0
        cfg.brandName.toUpper (px cfg.posBrand.x)
        (py cfg.aspectRatio cfg.posBrand.y)]
    else []

/-- Headline block of the simplified copy (src/index.tsx lines 157-162):
note, no shadow here. -/
def headlineOpsSimple (cfg : PosterConfig) : List (Tag × DrawOp) :=
  tagOps .headline <|
    if cfg.posHeadline.visible then
      [.fillText cfg.colorHeadline (getFont cfg.posHeadline 0.08) "center" 0
        cfg.headline (px cfg.posHeadline.x) (py cfg.aspectRatio cfg.posHeadline.y)]
    else []

/-- CTA block of the simplified copy (src/index.tsx lines 164-178). -/
def ctaOpsSimple (measure : FontSpec → String → ℚ) (cfg : PosterConfig) :
    List (Tag × DrawOp) :=
  tagOps .cta <|
    if cfg.posCTA.visible then
      let scale := cfg.posCTA.scale
      let font := getFont cfg.posCTA 0.045
      let txt := cfg.ctaText.toUpper
      let w := measure font txt + 80
      let h := (canvasWidth * 0.1) * scale
      [.roundRect cfg.bgColorCTA (px cfg.posCTA.x - w / 2)
        (py cfg.aspectRatio cfg.posCTA.y - h / 2) w h 20,
       .fillText cfg.colorCTA font "center" 0 txt (px cfg.posCTA.x)
        (py cfg.aspectRatio cfg.posCTA.y + h / 4)]
    else []

/-- Logo block of the simplified copy (src/index.tsx lines 180-185). -/
def logoOpsSimple (cfg : PosterConfig) (logo : Option Img) : List (Tag × DrawOp) :=
  tagOps .logo <|
    if cfg.posLogo.visible then
      match logo with
      | some img =>
        let lw := (canvasWidth * 0.15) * cfg.posLogo.scale
        let lh := (img.h / img.w) * lw
        [.drawImage .logo (px cfg.posLogo.x) (py cfg.aspectRatio cfg.posLogo.y)
          lw lh]
      | none => []
    else []

/-- The simplified copy's `drawCanvas` (src/index.tsx lines 121-186).
It takes an `isExporting` flag (line 121) that its body never reads. -/
def drawCanvasSimple (measure : FontSpec → String → ℚ) (cfg : PosterConfig)
    (bg logo : Option Img) (isExporting : Bool) : List (Tag × DrawOp) :=
  bgOpsSimple cfg.aspectRatio bg ++ brandOpsSimple cfg ++
    headlineOpsSimple cfg ++ ctaOpsSimple measure cfg ++ logoOpsSimple cfg logo

/-- Squared Euclidean distance in percentage space from the pointer to an
element's anchor.  The source (src/index.tsx line 413) computes
`d = Math.sqrt(dx² + dy²)` and compares `d < minDist`; all the quantities
involved are nonnegative and `√` is strictly monotone on them, so the
scan is embedded on squared distances, with the initial threshold
`minDist = 12` (line 408) becoming `144`. -/
def distSq (p : ℚ × ℚ) (item : ElementPos) : ℚ :=
  (p.1 - item.x) ^ 2 + (p.2 - item.y) ^ 2

/-- The key list scanned by the full copy's `handleMouseDown`
(src/index.tsx line 405). -/
def elementKeys : List ElemKey :=
  [.posLogo, .posBrand, .posEventName, .posBadges, .posHeadline,
   .posSubHeadline, .posCTA, .posQR]

/-- The `elements.forEach` scan of the full copy's `handleMouseDown`
(src/index.tsx lines 410-418): skip invisible elements, keep the running
nearest element strictly under the running minimum (squared) distance. -/
def hitScan (cfg : PosterConfig) (p : ℚ × ℚ) :
    List ElemKey → Option ElemKey × ℚ → Option ElemKey × ℚ
  | [], acc => acc
  | k :: ks, acc =>
    if (getPos cfg k).visible = true ∧ distSq p (getPos cfg k) < acc.2 then
      hitScan cfg p ks (some k, distSq p (getPos cfg k))
    else
      hitScan cfg p ks acc

/-- The full copy's `handleMouseDown` (src/index.tsx lines 403-429):
returns the drag state started (key and pointer−anchor offset), or
`none` when no visible element lies strictly within the capture radius
(in which case the handler leaves all state untouched). -/
def handleMouseDownFull (cfg : PosterConfig) (p : ℚ × ℚ) : Option DragState :=
  match (hitScan cfg p elementKeys (none, 144)).1 with
  | some k => some ⟨k, p.1 - (getPos cfg k).x, p.2 - (getPos cfg k).y⟩
  | none => none

/-- The key list of the simplified copy's `handleMouseDown`
(src/index.tsx line 217). -/
def simpleKeys : List ElemKey := [.posBrand, .posHeadline, .posCTA, .posLogo]

/-- The `for` loop of the simplified copy's `handleMouseDown`
(src/index.tsx lines 218-225): first element whose anchor lies within an
axis-aligned 10-unit box around the pointer wins; visibility is never
consulted. -/
def hitSimple (cfg : PosterConfig) (p : ℚ × ℚ) : List ElemKey → Option DragState
  | [] => none
  | k :: ks =>
    let pos := getPos cfg k
    if |pos.x - p.1| < 10 ∧ |pos.y - p.2| < 10 then
      some ⟨k, p.1 - pos.x, p.2 - pos.y⟩
    else
      hitSimple cfg p ks

/-- The simplified copy's `handleMouseDown` (src/index.tsx lines 211-227):
`some drag` also records the selection (`setSelectedElement(key)`);
`none` clears it (`setSelectedElement(null)`, line 226). -/
def handleMouseDownSimple (cfg : PosterConfig) (p : ℚ × ℚ) : Option DragState :=
  hitSimple cfg p simpleKeys

/-- The visibility toggle of the layer panel (src/index.tsx lines 829-835):
`{ ...prev, [key]: { ...prev[key], visible: !prev[key].visible } }`. -/
def toggleVisible (cfg : PosterConfig) (k : ElemKey) : PosterConfig :=
  setPos cfg k { getPos cfg k with visible := !(getPos cfg k).visible }

/-- `part.inlineData` of a generation-response part
(src/services/gemini.ts lines 40-43). -/
structure InlineData where
  mimeType : String
  data : String
  deriving DecidableEq, Repr

/-- One part of `response.candidates[0].content.parts`. -/
structure RespPart where
  inlineData : Option InlineData
  deriving DecidableEq, Repr

/-- The `for (const part of parts)` loop (src/services/gemini.ts lines
40-44): the first part carrying inline data. -/
def firstInline : List RespPart → Option InlineData
  | [] => none
  | p :: ps =>
    match p.inlineData with
    | some d => some d
    | none => firstInline ps

/-- JS falsiness of `process.env.API_KEY` (src/services/gemini.ts line 11):
`!apiKey` is true when the variable is unset or the empty string. -/
def keyMissing : Option String → Bool
  | none => true
  | some s => s == ""

/-- `generatePosterBackground` (src/services/gemini.ts lines 5-51).
The external call is abstracted by its observable outcome: `resp` is
`response.candidates?.[0]?.content?.parts` (`none` when any link of the
optional chain is absent, defaulted to `[]` by `|| []`).  The missing-key
branch throws before the service client is even constructed. -/
def generatePosterBackground (apiKey : Option String)
    (resp : Option (List RespPart)) : Except String String :=
  if keyMissing apiKey then
    .error "Missing API_KEY. Please set your Gemini API key."
  else
    match firstInline (resp.getD []) with
    | some d => .ok ("data:" ++ d.mimeType ++ ";base64," ++ d.data)
    | none => .error "Empty model response"

/-- A concrete text-measurement function, used to evaluate the embedding
at closed inputs (every string measures 0). -/
def measure0 : FontSpec → String → ℚ := fun _ _ => 0

/-- Whether a draw op is a linear-gradient fill. -/
def isGradient : DrawOp → Bool
  | .gradientRect _ _ _ _ _ _ _ _ _ => true
  | _ => false

/-- The default document with the brand layer hidden. -/
def cfgHiddenBrand : PosterConfig :=
  { defaultConfigFull with
    posBrand := { defaultConfigFull.posBrand with visible := false } }

/-- Relation between two consecutive lines emitted by `wrapLoop`: the
second line opens with the word whose addition to the first line
overflowed `maxWidth`, and sits one `lineHeight` lower. -/
def brokeAt (measureLine : String → ℚ) (maxWidth lineHeight : ℚ)
    (a b : String × ℚ) : Prop :=
  (∃ w s, b.1 = (w ++ " ") ++ s ∧ measureLine ((a.1 ++ w) ++ " ") > maxWidth) ∧
  b.2 = a.2 + lineHeight

/-- The `(line, curY)` pairs produced for the sub-headline: the
`wrapText` call of src/index.tsx line 540 before its `fillText`s. -/
def subWrapLines (measure : FontSpec → String → ℚ) (cfg : PosterConfig) :
    List (String × ℚ) :=
  wrapLoop (measure (subFont cfg.posSubHeadline.scale)) (canvasWidth * 0.85)
    (canvasWidth * 0.055 * cfg.posSubHeadline.scale)
    (strSplit cfg.subHeadline ' ') 0 ""
    (py cfg.aspectRatio cfg.posSubHeadline.y)

section SharedLemmas

lemma getPos_setPos_same (cfg : PosterConfig) (k : ElemKey) (p : ElementPos) :
    getPos (setPos cfg k p) k = p := by
  cases k <;> rfl

lemma ratioParts_SQUARE : ratioParts .SQUARE = (1, 1) := by decide
lemma ratioParts_STORY : ratioParts .STORY = (9, 16) := by decide
lemma ratioParts_LANDSCAPE : ratioParts .LANDSCAPE = (16, 9) := by decide
lemma ratioParts_LINKEDIN : ratioParts .LINKEDIN = (4, 3) := by decide

lemma canvasHeight_SQUARE : canvasHeight .SQUARE = 1080 := by
  rw [canvasHeight, ratioParts_SQUARE]; norm_num

lemma canvasHeight_STORY : canvasHeight .STORY = 1920 := by
  rw [canvasHeight, ratioParts_STORY]; norm_num

lemma canvasHeight_LANDSCAPE : canvasHeight .LANDSCAPE = 1215 / 2 := by
  rw [canvasHeight, ratioParts_LANDSCAPE]; norm_num

lemma canvasHeight_LINKEDIN : canvasHeight .LINKEDIN = 810 := by
  rw [canvasHeight, ratioParts_LINKEDIN]; norm_num

lemma canvasHeight_pos (r : AspectRatio) : 0 < canvasHeight r := by
  cases r
  · rw [canvasHeight_SQUARE]; norm_num
  · rw [canvasHeight_STORY]; norm_num
  · rw [canvasHeight_LANDSCAPE]; norm_num
  · rw [canvasHeight_LINKEDIN]; norm_num

lemma jsRound_intCast (k : ℤ) : jsRound (k : ℚ) = k := by
  unfold jsRound
  rw [Int.floor_int_add]
  norm_num

lemma snapAxis_mul (v : ℚ) : ∃ k : ℤ, snapAxis v = 2 * k :=
  ⟨jsRound (v / 2), by unfold snapAxis SNAP_SIZE; ring⟩

lemma snapAxis_idem (v : ℚ) : snapAxis (snapAxis v) = snapAxis v := by
  unfold snapAxis SNAP_SIZE
  have h : ((jsRound (v / 2) : ℚ) * 2) / 2 = (jsRound (v / 2) : ℚ) := by ring
  rw [h, jsRound_intCast]

lemma clampAxis_mem (v : ℚ) : 0 ≤ clampAxis v ∧ clampAxis v ≤ 100 := by
  refine ⟨le_max_left 0 _, max_le (by norm_num) (min_le_left _ _)⟩

lemma clampAxis_of_mem (v : ℚ) (h0 : 0 ≤ v) (h1 : v ≤ 100) : clampAxis v = v := by
  unfold clampAxis
  rw [min_eq_right h1, max_eq_right h0]

lemma clampAxis_idem (v : ℚ) : clampAxis (clampAxis v) = clampAxis v :=
  clampAxis_of_mem _ (clampAxis_mem v).1 (clampAxis_mem v).2

end SharedLemmas

/-- C1 counterexample: neither pointer-move handler both snaps and clamps.
The simplified handler at pointer x = 103 (offset 0) stores 104, a grid
multiple outside [0,100]; the full handler at pointer x = 1 stores 1,
inside [0,100] but not on the 2-unit grid (snapping it again moves it to
2, so it is not a fixed point of the snap). -/
theorem move_snap_and_clamp_counterexample :
    (getPos (handleMouseMoveSimple defaultConfigFull ⟨.posBrand, 0, 0⟩ (103, 50))
        .posBrand).x = 104 ∧
    ¬ (getPos (handleMouseMoveSimple defaultConfigFull ⟨.posBrand, 0, 0⟩ (103, 50))
        .posBrand).x ≤ 100 ∧
    (getPos (handleMouseMoveFull defaultConfigFull ⟨.posBrand, 0, 0⟩ (1, 50))
        .posBrand).x = 1 ∧
    snapAxis (getPos (handleMouseMoveFull defaultConfigFull ⟨.posBrand, 0, 0⟩ (1, 50))
        .posBrand).x = 2 ∧
    (2 : ℚ) ≠ 1 := by
  have hx : (getPos (handleMouseMoveSimple defaultConfigFull ⟨.posBrand, 0, 0⟩ (103, 50))
      .posBrand).x = 104 := by
    rw [handleMouseMoveSimple, getPos_setPos_same]
    show snapAxis (103 - 0) = 104
    unfold snapAxis jsRound SNAP_SIZE
    norm_num
  have hy : (getPos (handleMouseMoveFull defaultConfigFull ⟨.posBrand, 0, 0⟩ (1, 50))
      .posBrand).x = 1 := by
    rw [handleMouseMoveFull, getPos_setPos_same]
    show clampAxis (1 - 0) = 1
    unfold clampAxis
    norm_num
  refine ⟨hx, by rw [hx]; norm_num, hy, ?_, by norm_num⟩
  rw [hy]
  unfold snapAxis jsRound SNAP_SIZE
  norm_num

/-- C1 amended: the simplified handler snaps each axis of
(pointer − offset) to the 2-unit grid (so the stored coordinates are
always integer multiples of 2, with idempotent snapping) but never
clamps; the full handler clamps each axis into [0,100] (idempotently)
but never snaps. -/
theorem move_snap_or_clamp (cfg : PosterConfig) (drag : DragState)
    (ptr : ℚ × ℚ) (v : ℚ) :
    (∃ kx : ℤ, (getPos (handleMouseMoveSimple cfg drag ptr) drag.key).x = 2 * kx) ∧
    (∃ ky : ℤ, (getPos (handleMouseMoveSimple cfg drag ptr) drag.key).y = 2 * ky) ∧
    snapAxis (snapAxis v) = snapAxis v ∧
    0 ≤ (getPos (handleMouseMoveFull cfg drag ptr) drag.key).x ∧
    (getPos (handleMouseMoveFull cfg drag ptr) drag.key).x ≤ 100 ∧
    0 ≤ (getPos (handleMouseMoveFull cfg drag ptr) drag.key).y ∧
    (getPos (handleMouseMoveFull cfg drag ptr) drag.key).y ≤ 100 ∧
    clampAxis (clampAxis v) = clampAxis v := by
  rw [handleMouseMoveSimple, handleMouseMoveFull, getPos_setPos_same,
    getPos_setPos_same]
  exact ⟨snapAxis_mul _, snapAxis_mul _, snapAxis_idem v,
    (clampAxis_mem _).1, (clampAxis_mem _).2,
    (clampAxis_mem _).1, (clampAxis_mem _).2, clampAxis_idem v⟩

/-- C7: the raster is always 1080 wide; the height comes from the literal
ratio of the aspect-ratio enum member (9:16 → 1080/9·16 = 1920, 1:1 →
1080, 16:9 → 607.5, 4:3 → 810); and the percentage-to-pixel transforms
satisfy px(pct)/W = pct/100 and py(pct)/H = pct/100 exactly on [0,100]. -/
theorem output_dims_and_linear_transform (r : AspectRatio) (pct : ℚ)
    (h0 : 0 ≤ pct) (h1 : pct ≤ 100) :
    canvasWidth = 1080 ∧
    canvasHeight r = 1080 / (ratioParts r).1 * (ratioParts r).2 ∧
    canvasHeight .STORY = 1080 / 9 * 16 ∧
    canvasHeight .SQUARE = 1080 ∧
    canvasHeight .LANDSCAPE = 1080 / 16 * 9 ∧
    canvasHeight .LINKEDIN = 1080 / 4 * 3 ∧
    px pct / canvasWidth = pct / 100 ∧
    py r pct / canvasHeight r = pct / 100 := by
  refine ⟨rfl, rfl, by rw [canvasHeight_STORY]; norm_num,
    canvasHeight_SQUARE, by rw [canvasHeight_LANDSCAPE]; norm_num,
    by rw [canvasHeight_LINKEDIN]; norm_num, ?_, ?_⟩
  · rw [px, canvasWidth]
    field_simp
    ring
  · have h := canvasHeight_pos r
    rw [py]
    field_simp
    ring

/-- C7 witness: the theorem instantiated at the 9:16 story ratio and
pct = 50. -/
theorem output_dims_and_linear_transform_witness :
    (0 : ℚ) ≤ 50 ∧ (50 : ℚ) ≤ 100 ∧
    (canvasWidth = 1080 ∧
     canvasHeight .STORY = 1080 / (ratioParts .STORY).1 * (ratioParts .STORY).2 ∧
     canvasHeight .STORY = 1080 / 9 * 16 ∧
     canvasHeight .SQUARE = 1080 ∧
     canvasHeight .LANDSCAPE = 1080 / 16 * 9 ∧
     canvasHeight .LINKEDIN = 1080 / 4 * 3 ∧
     px 50 / canvasWidth = 50 / 100 ∧
     py .STORY 50 / canvasHeight .STORY = 50 / 100) :=
  ⟨by norm_num, by norm_num,
    output_dims_and_linear_transform .STORY 50 (by norm_num) (by norm_num)⟩

/-- C4: each badge box is auto-sized to its own measured label plus the
fixed (unscaled) padding 34, with height 0.055·W·scale and corner radius
10·scale, and the second badge's left edge is exactly the first badge's
left edge plus its width plus the fixed gap 15·scale, for every pair of
label strings; the emitted badge block draws exactly these two boxes. -/
theorem badge_pair_layout (measure : FontSpec → String → ℚ)
    (cfg : PosterConfig) (h : cfg.posBadges.visible = true) :
    (badge1Rect measure cfg).w =
      measure (badgeFont cfg.posBadges.scale) cfg.duration + 34 ∧
    (badge2Rect measure cfg).w =
      measure (badgeFont cfg.posBadges.scale) cfg.price + 34 ∧
    (badge1Rect measure cfg).h = canvasWidth * 0.055 * cfg.posBadges.scale ∧
    (badge2Rect measure cfg).h = canvasWidth * 0.055 * cfg.posBadges.scale ∧
    (badge1Rect measure cfg).rad = 10 * cfg.posBadges.scale ∧
    (badge2Rect measure cfg).rad = 10 * cfg.posBadges.scale ∧
    (badge2Rect measure cfg).y = (badge1Rect measure cfg).y ∧
    (badge2Rect measure cfg).x = (badge1Rect measure cfg).x +
      (badge1Rect measure cfg).w + 15 * cfg.posBadges.scale ∧
    badgesOpsFull measure cfg = tagOps .badges
      [.roundRect cfg.bgColorBadge1 (badge1Rect measure cfg).x
         (badge1Rect measure cfg).y (badge1Rect measure cfg).w
         (badge1Rect measure cfg).h (badge1Rect measure cfg).rad,
       .fillText cfg.colorBadges (badgeFont cfg.posBadges.scale) "left" 0
         cfg.duration ((badge1Rect measure cfg).x + 17 * cfg.posBadges.scale)
         ((badge1Rect measure cfg).y + (badge1Rect measure cfg).h / 2 +
           10 * cfg.posBadges.scale),
       .roundRect cfg.bgColorBadge2 (badge2Rect measure cfg).x
         (badge2Rect measure cfg).y (badge2Rect measure cfg).w
         (badge2Rect measure cfg).h (badge2Rect measure cfg).rad,
       .fillText cfg.colorBadges (badgeFont cfg.posBadges.scale) "left" 0
         cfg.price ((badge1Rect measure cfg).x + (badge1Rect measure cfg).w +
           32 * cfg.posBadges.scale)
         ((badge1Rect measure cfg).y + (badge1Rect measure cfg).h / 2 +
           10 * cfg.posBadges.scale)] := by
  refine ⟨rfl, rfl, rfl, rfl, rfl, rfl, rfl, rfl, ?_⟩
  simp only [badgesOpsFull, badge1Rect, badge2Rect, h, if_true]

/-- C4 witness: the badge layout at the default document (which has the
badges visible) under the zero measurement function. -/
theorem badge_pair_layout_witness :
    defaultConfigFull.posBadges.visible = true ∧
    ((badge1Rect measure0 defaultConfigFull).w =
      measure0 (badgeFont defaultConfigFull.posBadges.scale)
        defaultConfigFull.duration + 34 ∧
    (badge2Rect measure0 defaultConfigFull).w =
      measure0 (badgeFont defaultConfigFull.posBadges.scale)
        defaultConfigFull.price + 34 ∧
    (badge1Rect measure0 defaultConfigFull).h =
      canvasWidth * 0.055 * defaultConfigFull.posBadges.scale ∧
    (badge2Rect measure0 defaultConfigFull).h =
      canvasWidth * 0.055 * defaultConfigFull.posBadges.scale ∧
    (badge1Rect measure0 defaultConfigFull).rad =
      10 * defaultConfigFull.posBadges.scale ∧
    (badge2Rect measure0 defaultConfigFull).rad =
      10 * defaultConfigFull.posBadges.scale ∧
    (badge2Rect measure0 defaultConfigFull).y =
      (badge1Rect measure0 defaultConfigFull).y ∧
    (badge2Rect measure0 defaultConfigFull).x =
      (badge1Rect measure0 defaultConfigFull).x +
      (badge1Rect measure0 defaultConfigFull).w +
      15 * defaultConfigFull.posBadges.scale ∧
    badgesOpsFull measure0 defaultConfigFull = tagOps .badges
      [.roundRect defaultConfigFull.bgColorBadge1
         (badge1Rect measure0 defaultConfigFull).x
         (badge1Rect measure0 defaultConfigFull).y
         (badge1Rect measure0 defaultConfigFull).w
         (badge1Rect measure0 defaultConfigFull).h
         (badge1Rect measure0 defaultConfigFull).rad,
       .fillText defaultConfigFull.colorBadges
         (badgeFont defaultConfigFull.posBadges.scale) "left" 0
         defaultConfigFull.duration
         ((badge1Rect measure0 defaultConfigFull).x +
           17 * defaultConfigFull.posBadges.scale)
         ((badge1Rect measure0 defaultConfigFull).y +
           (badge1Rect measure0 defaultConfigFull).h / 2 +
           10 * defaultConfigFull.posBadges.scale),
       .roundRect defaultConfigFull.bgColorBadge2
         (badge2Rect measure0 defaultConfigFull).x
         (badge2Rect measure0 defaultConfigFull).y
         (badge2Rect measure0 defaultConfigFull).w
         (badge2Rect measure0 defaultConfigFull).h
         (badge2Rect measure0 defaultConfigFull).rad,
       .fillText defaultConfigFull.colorBadges
         (badgeFont defaultConfigFull.posBadges.scale) "left" 0
         defaultConfigFull.price
         ((badge1Rect measure0 defaultConfigFull).x +
           (badge1Rect measure0 defaultConfigFull).w +
           32 * defaultConfigFull.posBadges.scale)
         ((badge1Rect measure0 defaultConfigFull).y +
           (badge1Rect measure0 defaultConfigFull).h / 2 +
           10 * defaultConfigFull.posBadges.scale)]) :=
  ⟨rfl, badge_pair_layout measure0 defaultConfigFull rfl⟩

/-- C9: the background-generation call fails with the missing-credential
error whenever the API key is unset (or empty), independently of the
service response; given a key, it fails with the empty-result error when
no part of the response carries inline data, and otherwise returns the
data URI built from the first inline-data part. -/
theorem generateBackground_outcomes (apiKey : Option String)
    (resp respOther : Option (List RespPart)) (d : InlineData) :
    (keyMissing apiKey = true →
      generatePosterBackground apiKey resp =
        .error "Missing API_KEY. Please set your Gemini API key." ∧
      generatePosterBackground apiKey resp =
        generatePosterBackground apiKey respOther) ∧
    (keyMissing apiKey = false → firstInline (resp.getD []) = none →
      generatePosterBackground apiKey resp = .error "Empty model response") ∧
    (keyMissing apiKey = false → firstInline (resp.getD []) = some d →
      generatePosterBackground apiKey resp =
        .ok ("data:" ++ d.mimeType ++ ";base64," ++ d.data)) := by
  refine ⟨fun h => ?_, fun h hf => ?_, fun h hf => ?_⟩
  · rw [generatePosterBackground, generatePosterBackground, h]
    simp
  · rw [generatePosterBackground, h, hf]
    simp
  · rw [generatePosterBackground, h, hf]
    simp

/-- C9 witness: with no key configured the call errors regardless of the
response; with a key and a one-part response the first inline datum is
returned as a data URI. -/
theorem generateBackground_outcomes_witness :
    keyMissing none = true ∧
    generatePosterBackground none (some [⟨some ⟨"image/png", "QUFB"⟩⟩]) =
      .error "Missing API_KEY. Please set your Gemini API key." ∧
    keyMissing (some "k") = false ∧
    firstInline ((some [⟨some ⟨"image/png", "QUFB"⟩⟩] : Option (List RespPart)).getD []) =
      some ⟨"image/png", "QUFB"⟩ ∧
    generatePosterBackground (some "k") (some [⟨some ⟨"image/png", "QUFB"⟩⟩]) =
      .ok "data:image/png;base64,QUFB" :=
  ⟨rfl,
   ((generateBackground_outcomes none (some [⟨some ⟨"image/png", "QUFB"⟩⟩])
      none ⟨"image/png", "QUFB"⟩).1 rfl).1,
   rfl, rfl, by
    have h := (generateBackground_outcomes (some "k")
      (some [⟨some ⟨"image/png", "QUFB"⟩⟩]) none ⟨"image/png", "QUFB"⟩).2.2
      rfl rfl
    simpa using h⟩

/-- C5 counterexample: the simplified `drawCanvas` takes an `isExporting`
flag but renders identically for both values (no grid overlay or
selection highlight exists), and the full `drawCanvas` — the one drawn
on screen while editing — gives the headline its drop shadow
(`shadowBlur = 20`) unconditionally, not only when exporting. -/
theorem preview_export_counterexample :
    drawCanvasSimple measure0 defaultConfigFull none none true =
      drawCanvasSimple measure0 defaultConfigFull none none false ∧
    headlineOpsFull defaultConfigFull =
      [(.headline, .fillText "#ffffff"
         ⟨"900 ", canvasWidth * 0.08 * 1⟩ "center" 20
         "Master AI Tools Today" (px 50) (py .STORY 70))] := by
  exact ⟨rfl, rfl⟩

/-- C5 amended: the render draws the same ops whatever the export flag —
no preview-only grid or selection outline exists — and the headline drop
shadow is applied unconditionally by the full copy's render. -/
theorem mode_flag_unused (measure : FontSpec → String → ℚ)
    (cfg : PosterConfig) (bg logo : Option Img) :
    drawCanvasSimple measure cfg bg logo true =
      drawCanvasSimple measure cfg bg logo false ∧
    (cfg.posHeadline.visible = true →
      headlineOpsFull cfg = [(.headline, .fillText cfg.colorHeadline
        ⟨"900 ", canvasWidth * 0.08 * cfg.posHeadline.scale⟩ "center" 20
        cfg.headline (px cfg.posHeadline.x)
        (py cfg.aspectRatio cfg.posHeadline.y))]) := by
  refine ⟨rfl, fun h => ?_⟩
  simp [headlineOpsFull, h, tagOps]

/-- C5 amended witness: instantiated at the default document, whose
headline is visible. -/
theorem mode_flag_unused_witness :
    defaultConfigFull.posHeadline.visible = true ∧
    headlineOpsFull defaultConfigFull =
      [(.headline, .fillText defaultConfigFull.colorHeadline
        ⟨"900 ", canvasWidth * 0.08 * defaultConfigFull.posHeadline.scale⟩
        "center" 20 defaultConfigFull.headline
        (px defaultConfigFull.posHeadline.x)
        (py defaultConfigFull.aspectRatio defaultConfigFull.posHeadline.y))] :=
  ⟨rfl, (mode_flag_unused measure0 defaultConfigFull none none).2 rfl⟩

/-- C6 counterexample: with zero images loaded, the simplified copy's
render fills the background with the solid color `#020617` — no gradient
op appears anywhere in its output — where the claim requires a two-stop
gradient. -/
theorem gradient_fallback_counterexample :
    (drawCanvasSimple measure0 defaultConfigFull none none false).head? =
      some (.background, .fillRect "#020617" 0 0 1080 1920) ∧
    (drawCanvasSimple measure0 defaultConfigFull none none false).all
      (fun q => !(isGradient q.2)) = true := by
  constructor
  · have e : canvasHeight defaultConfigFull.aspectRatio = 1920 := canvasHeight_STORY
    rw [show (drawCanvasSimple measure0 defaultConfigFull none none false).head? =
      some (.background, .fillRect "#020617" 0 0 canvasWidth
        (canvasHeight defaultConfigFull.aspectRatio)) from rfl, e]
    rfl
  · simp [drawCanvasSimple, bgOpsSimple, brandOpsSimple, headlineOpsSimple,
      ctaOpsSimple, logoOpsSimple, defaultConfigFull, isGradient, getFont,
      measure0, tagOps]

/-- C6 amended: every render pass is total and starts with a full-surface
background: the full copy falls back to the fixed two-stop vertical
gradient (dark navy `#0f172a` to near-black `#020617`) when no
background image is loaded and stretch-fits a loaded image to (W,H);
the simplified copy's fallback is a solid `#020617` fill instead. -/
theorem render_total_with_fallback (measure : FontSpec → String → ℚ)
    (cfg : PosterConfig) (bg logo qrImg : Option Img) (img : Img) (e : Bool) :
    bgOpsFull cfg.aspectRatio none =
      [(.background, .gradientRect [(0, "#0f172a"), (1, "#020617")] 0 0 0
        (canvasHeight cfg.aspectRatio) 0 0 canvasWidth
        (canvasHeight cfg.aspectRatio))] ∧
    bgOpsFull cfg.aspectRatio (some img) =
      [(.background, .drawImage .bg 0 0 canvasWidth
        (canvasHeight cfg.aspectRatio))] ∧
    (∃ rest, drawCanvasFull measure cfg bg logo qrImg =
      (.background, .clearRect 0 0 canvasWidth (canvasHeight cfg.aspectRatio)) ::
        (bgOpsFull cfg.aspectRatio bg ++ rest)) ∧
    (∃ rest₂, drawCanvasSimple measure cfg none logo e =
      (.background, .fillRect "#020617" 0 0 canvasWidth
        (canvasHeight cfg.aspectRatio)) :: rest₂) := by
  refine ⟨rfl, rfl,
    ⟨logoOpsFull cfg logo ++ (brandOpsFull cfg ++ (eventNameOpsFull cfg ++
      (badgesOpsFull measure cfg ++ (headlineOpsFull cfg ++
      (subHeadlineOpsFull measure cfg ++ (qrOpsFull cfg qrImg ++
      ctaOpsFull measure cfg)))))), ?_⟩,
    ⟨brandOpsSimple cfg ++ (headlineOpsSimple cfg ++ (ctaOpsSimple measure cfg ++
      logoOpsSimple cfg logo)), ?_⟩⟩
  · rw [drawCanvasFull]
    simp [List.append_assoc]
  · rw [drawCanvasSimple]
    simp [bgOpsSimple, tagOps, List.append_assoc]

section HitLemmas

lemma mem_elementKeys (j : ElemKey) : j ∈ elementKeys := by
  cases j <;> simp [elementKeys]

lemma hitScan_spec (cfg : PosterConfig) (p : ℚ × ℚ) (ks : List ElemKey) :
    ∀ (c : Option ElemKey) (m : ℚ),
      (hitScan cfg p ks (c, m) = (c, m) ∨
        ((hitScan cfg p ks (c, m)).2 < m ∧
         ∃ k ∈ ks, (hitScan cfg p ks (c, m)).1 = some k ∧
           (getPos cfg k).visible = true ∧
           distSq p (getPos cfg k) = (hitScan cfg p ks (c, m)).2)) ∧
      (∀ k ∈ ks, (getPos cfg k).visible = true →
        (hitScan cfg p ks (c, m)).2 ≤ distSq p (getPos cfg k)) ∧
      (hitScan cfg p ks (c, m)).2 ≤ m := by
  induction ks with
  | nil => intro c m; simp [hitScan]
  | cons k ks ih =>
    intro c m
    by_cases hc : (getPos cfg k).visible = true ∧ distSq p (getPos cfg k) < m
    · rw [show hitScan cfg p (k :: ks) (c, m) =
        hitScan cfg p ks (some k, distSq p (getPos cfg k)) by
          rw [hitScan, if_pos hc]]
      obtain ⟨ih1, ih2, ih3⟩ := ih (some k) (distSq p (getPos cfg k))
      refine ⟨Or.inr ?_, fun j hj hvj => ?_, le_trans ih3 (le_of_lt hc.2)⟩
      · rcases ih1 with heq | ⟨hlt, k', hk', h1, h2, h3⟩
        · rw [heq]
          exact ⟨hc.2, k, List.mem_cons_self _ _, rfl, hc.1, rfl⟩
        · exact ⟨lt_trans hlt hc.2, k', List.mem_cons_of_mem _ hk', h1, h2, h3⟩
      · rcases List.mem_cons.mp hj with rfl | hj'
        · exact ih3
        · exact ih2 j hj' hvj
    · rw [show hitScan cfg p (k :: ks) (c, m) = hitScan cfg p ks (c, m) by
        rw [hitScan, if_neg hc]]
      obtain ⟨ih1, ih2, ih3⟩ := ih c m
      refine ⟨?_, fun j hj hvj => ?_, ih3⟩
      · rcases ih1 with heq | ⟨hlt, k', hk', h1, h2, h3⟩
        · exact Or.inl heq
        · exact Or.inr ⟨hlt, k', List.mem_cons_of_mem _ hk', h1, h2, h3⟩
      · rcases List.mem_cons.mp hj with rfl | hj'
        · by_cases hv : (getPos cfg j).visible = true
          · have : ¬ distSq p (getPos cfg j) < m := fun hlt => hc ⟨hv, hlt⟩
            exact le_trans ih3 (not_lt.mp this)
          · exact absurd hvj hv
        · exact ih2 j hj' hvj

lemma handleMouseDownFull_spec (cfg : PosterConfig) (p : ℚ × ℚ) :
    (∀ d, handleMouseDownFull cfg p = some d →
      d.offsetX = p.1 - (getPos cfg d.key).x ∧
      d.offsetY = p.2 - (getPos cfg d.key).y ∧
      (getPos cfg d.key).visible = true ∧
      distSq p (getPos cfg d.key) < 144 ∧
      ∀ j, (getPos cfg j).visible = true →
        distSq p (getPos cfg d.key) ≤ distSq p (getPos cfg j)) ∧
    ((∀ j, (getPos cfg j).visible = true → 144 ≤ distSq p (getPos cfg j)) →
      handleMouseDownFull cfg p = none) := by
  obtain ⟨h1, h2, _⟩ := hitScan_spec cfg p elementKeys none 144
  constructor
  · intro d hd
    cases hres : (hitScan cfg p elementKeys (none, 144)).1 with
    | none => rw [handleMouseDownFull, hres] at hd; exact absurd hd (by simp)
    | some k =>
      rw [handleMouseDownFull, hres] at hd
      have hd' : d = ⟨k, p.1 - (getPos cfg k).x, p.2 - (getPos cfg k).y⟩ := by
        exact (Option.some_inj.mp hd).symm
      subst hd'
      rcases h1 with heq | ⟨hlt, k', _, hk'res, hvis, hdist⟩
      · rw [heq] at hres; exact absurd hres (by simp)
      · have hkk : k' = k := by
          rw [hres] at hk'res; exact (Option.some_inj.mp hk'res).symm
        subst hkk
        refine ⟨rfl, rfl, hvis, ?_, ?_⟩
        · rw [hdist]; exact hlt
        · intro j hvj
          rw [hdist]
          exact h2 j (mem_elementKeys j) hvj
  · intro hall
    rcases h1 with heq | ⟨hlt, k', _, hk'res, hvis, hdist⟩
    · rw [handleMouseDownFull, heq]
    · have : (144 : ℚ) ≤ distSq p (getPos cfg k') := hall k' hvis
      rw [hdist] at this
      exact absurd hlt (not_lt.mpr this)

end HitLemmas

/-- C2 counterexample: the simplified pointer-down handler selects the
brand element at pointer (50,10) even though its placement is not
visible — hit-testing there neither restricts itself to visible
elements nor uses Euclidean distance. -/
theorem hit_invisible_counterexample :
    (getPos cfgHiddenBrand .posBrand).visible = false ∧
    handleMouseDownSimple cfgHiddenBrand (50, 10) = some ⟨.posBrand, 0, 0⟩ := by
  refine ⟨rfl, ?_⟩
  norm_num [handleMouseDownSimple, simpleKeys, hitSimple, cfgHiddenBrand,
    defaultConfigFull, getPos]

/-- C2 amended: the full pointer-down handler selects only a visible
element, at squared distance strictly below 144 (capture radius 12) and
minimal among all visible elements, recording the pointer−anchor offset;
when every visible element is at or beyond the radius it selects
nothing (the simplified handler instead uses an axis-aligned 10-unit box
test over four fixed elements, first match wins, ignoring visibility,
and clears the selection when nothing matches). -/
theorem hit_selects_nearest_visible (cfg : PosterConfig) (p : ℚ × ℚ) :
    (∀ d, handleMouseDownFull cfg p = some d →
      (getPos cfg d.key).visible = true ∧
      distSq p (getPos cfg d.key) < 144 ∧
      (∀ j, (getPos cfg j).visible = true →
        distSq p (getPos cfg d.key) ≤ distSq p (getPos cfg j)) ∧
      d.offsetX = p.1 - (getPos cfg d.key).x ∧
      d.offsetY = p.2 - (getPos cfg d.key).y) ∧
    ((∀ j, (getPos cfg j).visible = true → 144 ≤ distSq p (getPos cfg j)) →
      handleMouseDownFull cfg p = none) := by
  obtain ⟨h1, h2⟩ := handleMouseDownFull_spec cfg p
  refine ⟨fun d hd => ?_, h2⟩
  obtain ⟨o1, o2, o3, o4, o5⟩ := h1 d hd
  exact ⟨o3, o4, o5, o1, o2⟩

/-- C2 amended witness: at the default document and pointer (50,10) the
full handler selects the brand element (distance 0) with zero offset. -/
theorem hit_selects_nearest_visible_witness :
    handleMouseDownFull defaultConfigFull (50, 10) = some ⟨.posBrand, 0, 0⟩ ∧
    (getPos defaultConfigFull .posBrand).visible = true ∧
    distSq (50, 10) (getPos defaultConfigFull .posBrand) < 144 := by
  have hleft : handleMouseDownFull defaultConfigFull (50, 10) =
      some ⟨.posBrand, 0, 0⟩ := by
    norm_num [handleMouseDownFull, hitScan, elementKeys, defaultConfigFull,
      getPos, distSq]
  have h := (hit_selects_nearest_visible defaultConfigFull (50, 10)).1
    ⟨.posBrand, 0, 0⟩ hleft
  exact ⟨hleft, h.1, h.2.1⟩

section ToggleLemmas

lemma setPos_setPos (cfg : PosterConfig) (k : ElemKey) (p q : ElementPos) :
    setPos (setPos cfg k p) k q = setPos cfg k q := by
  cases k <;> rfl

lemma setPos_getPos_self (cfg : PosterConfig) (k : ElemKey) :
    setPos cfg k (getPos cfg k) = cfg := by
  cases k <;> rfl

lemma toggleVisible_invol (cfg : PosterConfig) (k : ElemKey) :
    toggleVisible (toggleVisible cfg k) k = cfg := by
  rw [toggleVisible, toggleVisible, getPos_setPos_same, setPos_setPos]
  have h : ({ { getPos cfg k with visible := !(getPos cfg k).visible } with
      visible := !({ getPos cfg k with
        visible := !(getPos cfg k).visible }).visible } : ElementPos) =
      getPos cfg k := by
    cases getPos cfg k
    simp
  rw [h, setPos_getPos_self]

lemma tagOps_nil (t : Tag) : tagOps t [] = [] := rfl

lemma filter_tagOps_ne {t t' : Tag} (h : ¬ t = t') (l : List DrawOp) :
    (tagOps t l).filter (fun q => decide (q.1 = t')) = [] := by
  rw [List.filter_eq_nil_iff]
  intro a ha
  rcases List.mem_map.mp ha with ⟨b, _, rfl⟩
  simp [h]

lemma drawCanvasFull_filter_hidden (measure : FontSpec → String → ℚ)
    (cfg : PosterConfig) (bg logo qrImg : Option Img) (k : ElemKey)
    (h : (getPos cfg k).visible = false) :
    (drawCanvasFull measure cfg bg logo qrImg).filter
      (fun q => decide (q.1 = tagOf k)) = [] := by
  cases k <;>
    simp_all [drawCanvasFull, List.filter_append, List.filter_cons, getPos,
      tagOf, bgOpsFull, logoOpsFull, brandOpsFull, eventNameOpsFull,
      badgesOpsFull, headlineOpsFull, subHeadlineOpsFull, qrOpsFull,
      ctaOpsFull, filter_tagOps_ne, tagOps_nil]

end ToggleLemmas

/-- C8: the visibility toggle flips only the `visible` flag (x, y and
scale are untouched, and toggling twice restores the whole document);
a hidden element contributes no draw call to the full render and can
never be the element selected by the full pointer-down handler. -/
theorem visibility_toggle_props (cfg : PosterConfig) (k : ElemKey)
    (measure : FontSpec → String → ℚ) (bg logo qrImg : Option Img)
    (p : ℚ × ℚ) :
    (getPos (toggleVisible cfg k) k).x = (getPos cfg k).x ∧
    (getPos (toggleVisible cfg k) k).y = (getPos cfg k).y ∧
    (getPos (toggleVisible cfg k) k).scale = (getPos cfg k).scale ∧
    (getPos (toggleVisible cfg k) k).visible = !(getPos cfg k).visible ∧
    toggleVisible (toggleVisible cfg k) k = cfg ∧
    ((getPos cfg k).visible = false →
      (drawCanvasFull measure cfg bg logo qrImg).filter
        (fun q => decide (q.1 = tagOf k)) = []) ∧
    ((getPos cfg k).visible = false →
      ∀ d, handleMouseDownFull cfg p = some d → d.key ≠ k) := by
  refine ⟨?_, ?_, ?_, ?_, toggleVisible_invol cfg k,
    fun h => drawCanvasFull_filter_hidden measure cfg bg logo qrImg k h,
    fun h d hd heq => ?_⟩
  · rw [toggleVisible, getPos_setPos_same]
  · rw [toggleVisible, getPos_setPos_same]
  · rw [toggleVisible, getPos_setPos_same]
  · rw [toggleVisible, getPos_setPos_same]
  · obtain ⟨_, _, o3, _, _⟩ := (handleMouseDownFull_spec cfg p).1 d hd
    rw [heq, h] at o3
    exact Bool.noConfusion o3

/-- C8 witness: at the default document the QR element is hidden; its
toggle round-trips the document, it contributes no draw op, and it is
not selectable. -/
theorem visibility_toggle_props_witness :
    (getPos defaultConfigFull .posQR).visible = false ∧
    toggleVisible (toggleVisible defaultConfigFull .posQR) .posQR =
      defaultConfigFull ∧
    (drawCanvasFull measure0 defaultConfigFull none none none).filter
      (fun q => decide (q.1 = tagOf .posQR)) = [] :=
  ⟨rfl,
   (visibility_toggle_props defaultConfigFull .posQR measure0 none none none
     (0, 0)).2.2.2.2.1,
   (visibility_toggle_props defaultConfigFull .posQR measure0 none none none
     (0, 0)).2.2.2.2.2.1 rfl⟩

section WrapLemmas

lemma wrapLoop_ne_nil (m : String → ℚ) (mw lh : ℚ) :
    ∀ (ws : List String) (n : ℕ) (line : String) (y : ℚ),
      wrapLoop m mw lh ws n line y ≠ [] := by
  intro ws
  induction ws with
  | nil => intro n line y; simp [wrapLoop]
  | cons w ws ih =>
    intro n line y
    rw [wrapLoop]
    by_cases hc : m (line ++ w ++ " ") > mw ∧ 0 < n
    · rw [if_pos hc]; simp
    · rw [if_neg hc]; exact ih _ _ _

lemma wrapLoop_head_starts (m : String → ℚ) (mw lh : ℚ) :
    ∀ (ws : List String) (n : ℕ) (line : String) (y : ℚ),
      ∃ s, (wrapLoop m mw lh ws n line y).head? = some (line ++ s, y) := by
  intro ws
  induction ws with
  | nil =>
    intro n line y
    exact ⟨"", by rw [wrapLoop, String.append_empty]; rfl⟩
  | cons w ws ih =>
    intro n line y
    rw [wrapLoop]
    by_cases hc : m (line ++ w ++ " ") > mw ∧ 0 < n
    · rw [if_pos hc]
      exact ⟨"", by rw [String.append_empty]; rfl⟩
    · rw [if_neg hc]
      obtain ⟨s', hs'⟩ := ih (n + 1) (line ++ w ++ " ") y
      refine ⟨w ++ (" " ++ s'), ?_⟩
      rw [hs', String.append_assoc, String.append_assoc]

lemma chain_snd_arith (lh : ℚ) :
    ∀ (L : List (String × ℚ)) (y : ℚ),
      (∀ a ∈ L.head?, a.2 = y) →
      List.Chain' (fun a b : String × ℚ => b.2 = a.2 + lh) L →
      ∀ i (hi : i < L.length), (L.get ⟨i, hi⟩).2 = y + i * lh := by
  intro L
  induction L with
  | nil => intro y _ _ i hi; exact absurd hi (by simp)
  | cons a L ih =>
    intro y hhead hchain i hi
    obtain ⟨hab, hchain'⟩ := List.chain'_cons'.mp hchain
    cases i with
    | zero =>
      have : a.2 = y := hhead a rfl
      simpa using this
    | succ j =>
      have hj : j < L.length := Nat.succ_lt_succ_iff.mp hi
      have hstep : ∀ b ∈ L.head?, b.2 = y + lh := by
        intro b hb
        rw [hab b hb, hhead a rfl]
      have := ih (y + lh) hstep hchain' j hj
      rw [List.get_cons_succ, this]
      push_cast
      ring

lemma wrapLoop_chain (m : String → ℚ) (mw lh : ℚ) :
    ∀ (ws : List String) (n : ℕ) (line : String) (y : ℚ),
      List.Chain' (brokeAt m mw lh) (wrapLoop m mw lh ws n line y) := by
  intro ws
  induction ws with
  | nil => intro n line y; rw [wrapLoop]; exact List.chain'_singleton _
  | cons w ws ih =>
    intro n line y
    rw [wrapLoop]
    by_cases hc : m (line ++ w ++ " ") > mw ∧ 0 < n
    · rw [if_pos hc]
      refine List.chain'_cons'.mpr ⟨?_, ih _ _ _⟩
      intro b hb
      obtain ⟨s, hs⟩ := wrapLoop_head_starts m mw lh ws (n + 1) (w ++ " ") (y + lh)
      rw [hs] at hb
      simp only [Option.mem_def, Option.some_inj] at hb
      subst hb
      exact ⟨⟨w, s, rfl, hc.1⟩, rfl⟩
    · rw [if_neg hc]
      exact ih _ _ _

lemma wrapLoop_y_formula (m : String → ℚ) (mw lh : ℚ) (ws : List String)
    (n : ℕ) (line : String) (y : ℚ) :
    ∀ i (hi : i < (wrapLoop m mw lh ws n line y).length),
      ((wrapLoop m mw lh ws n line y).get ⟨i, hi⟩).2 = y + i * lh := by
  apply chain_snd_arith
  · intro a ha
    obtain ⟨s, hs⟩ := wrapLoop_head_starts m mw lh ws n line y
    rw [hs] at ha
    simp only [Option.mem_def, Option.some_inj] at ha
    rw [← ha]
  · exact (wrapLoop_chain m mw lh ws n line y).imp (fun a b hab => hab.2)

lemma string_foldl_append (l : List String) :
    ∀ x y : String, l.foldl (· ++ ·) (x ++ y) = x ++ l.foldl (· ++ ·) y := by
  induction l with
  | nil => intro x y; rfl
  | cons a l ih =>
    intro x y
    rw [List.foldl_cons, List.foldl_cons, String.append_assoc, ih]

lemma string_join_cons (a : String) (l : List String) :
    String.join (a :: l) = a ++ String.join l := by
  show (a :: l).foldl (· ++ ·) "" = a ++ l.foldl (· ++ ·) ""
  rw [List.foldl_cons, show ("" ++ a : String) = a ++ "" by
    rw [String.empty_append, String.append_empty], string_foldl_append]

lemma wrapLoop_join (m : String → ℚ) (mw lh : ℚ) :
    ∀ (ws : List String) (n : ℕ) (line : String) (y : ℚ),
      String.join ((wrapLoop m mw lh ws n line y).map Prod.fst) =
        line ++ String.join (ws.map (· ++ " ")) := by
  intro ws
  induction ws with
  | nil =>
    intro n line y
    rw [wrapLoop]
    show String.join [line] = line ++ String.join []
    rw [string_join_cons]
  | cons w ws ih =>
    intro n line y
    rw [wrapLoop]
    by_cases hc : m (line ++ w ++ " ") > mw ∧ 0 < n
    · rw [if_pos hc]
      rw [List.map_cons, string_join_cons, ih (n + 1) (w ++ " ") (y + lh),
        List.map_cons, string_join_cons, String.append_assoc]
    · rw [if_neg hc]
      rw [ih (n + 1) (line ++ w ++ " ") y, List.map_cons, string_join_cons]
      simp only [String.append_assoc]

end WrapLemmas

/-- C10: the word wrap never splits a word — the lines emitted are whole
words of the input joined in order (with their trailing spaces); the wrap
test is skipped for the first word, so a lone word (however wide) is
emitted as a single line; and every input, the empty string included,
yields at least one line, the first of which sits at the anchor. -/
theorem wrapText_word_atomicity (m : String → ℚ) (text : String)
    (x y mw lh : ℚ) :
    (wrapText m text x y mw lh ≠ [] ∧
     ∃ l, (wrapText m text x y mw lh).head? = some (l, x, y)) ∧
    (∀ w ws, strSplit text ' ' = w :: ws →
      ∃ s rest, wrapText m text x y mw lh = ((w ++ " ") ++ s, x, y) :: rest) ∧
    String.join ((wrapText m text x y mw lh).map (fun t => t.1)) =
      String.join ((strSplit text ' ').map (· ++ " ")) ∧
    (∀ w, strSplit text ' ' = [w] →
      wrapText m text x y mw lh = [(w ++ " ", x, y)]) := by
  refine ⟨⟨?_, ?_⟩, ?_, ?_, ?_⟩
  · simp [wrapText, wrapLoop_ne_nil]
  · obtain ⟨s, hs⟩ := wrapLoop_head_starts m mw lh (strSplit text ' ') 0 "" y
    refine ⟨"" ++ s, ?_⟩
    rw [wrapText, List.head?_map, hs]
    rfl
  · intro w ws hsplit
    have hstep : wrapLoop m mw lh (strSplit text ' ') 0 "" y =
        wrapLoop m mw lh ws 1 ("" ++ w ++ " ") y := by
      rw [hsplit, wrapLoop, if_neg]
      simp
    obtain ⟨s, hs⟩ := wrapLoop_head_starts m mw lh ws 1 ("" ++ w ++ " ") y
    have e : (("" ++ w ++ " ") : String) = w ++ " " := by
      rw [String.empty_append]
    rw [e] at hs hstep
    have hhead : (wrapText m text x y mw lh).head? =
        some (((w ++ " ") ++ s), x, y) := by
      rw [wrapText, List.head?_map, hstep, hs]
      rfl
    exact ⟨s, (wrapText m text x y mw lh).tail,
      (List.cons_head?_tail hhead).symm⟩
  · rw [wrapText, List.map_map]
    have hcomp : ((fun t : String × ℚ × ℚ => t.1) ∘ fun p : String × ℚ =>
        (p.1, x, p.2)) = Prod.fst := rfl
    rw [hcomp, wrapLoop_join m mw lh (strSplit text ' ') 0 "" y,
      String.empty_append]
  · intro w hsplit
    simp only [wrapText, hsplit]
    rw [wrapLoop, if_neg (by simp), wrapLoop]
    simp [String.empty_append]

/-- C10 witness: a one-word text is emitted as a single line at the
anchor even under a measurement that overflows any width. -/
theorem wrapText_word_atomicity_witness :
    strSplit "Landscape" ' ' = ["Landscape"] ∧
    wrapText (fun _ => 10 ^ 6) "Landscape" 3 7 1 2 = [("Landscape ", 3, 7)] :=
  ⟨by decide,
   (wrapText_word_atomicity (fun _ => 10 ^ 6) "Landscape" 3 7 1 2).2.2.2
     "Landscape" (by decide)⟩

/-- C3: the sub-headline block is exactly the greedy word wrap of the
text at maximum line width 0.85·W with line height 0.055·W·scale: the
i-th emitted line sits at anchor-y + i·lineHeight (so with positive
scale the line positions strictly increase), and each line break is
forced — the measured first line extended by the next line's opening
word exceeds the maximum width. -/
theorem subHeadline_greedy_wrap (measure : FontSpec → String → ℚ)
    (cfg : PosterConfig) (h : cfg.posSubHeadline.visible = true) :
    subHeadlineOpsFull measure cfg = tagOps .subHeadline
      ((subWrapLines measure cfg).map (fun p =>
        .fillText cfg.colorSubHeadline (subFont cfg.posSubHeadline.scale)
          "center" 0 p.1 (px cfg.posSubHeadline.x) p.2)) ∧
    (∀ i (hi : i < (subWrapLines measure cfg).length),
      ((subWrapLines measure cfg).get ⟨i, hi⟩).2 =
        py cfg.aspectRatio cfg.posSubHeadline.y +
          i * (canvasWidth * 0.055 * cfg.posSubHeadline.scale)) ∧
    List.Chain' (brokeAt (measure (subFont cfg.posSubHeadline.scale))
      (canvasWidth * 0.85) (canvasWidth * 0.055 * cfg.posSubHeadline.scale))
      (subWrapLines measure cfg) ∧
    (0 < cfg.posSubHeadline.scale →
      List.Chain' (· < ·) ((subWrapLines measure cfg).map Prod.snd)) := by
  refine ⟨?_, wrapLoop_y_formula _ _ _ _ _ _ _, wrapLoop_chain _ _ _ _ _ _ _,
    fun hs => ?_⟩
  · simp only [subHeadlineOpsFull, h, if_true, wrapText, subWrapLines,
      tagOps, List.map_map]
    rfl
  · have hlh : 0 < canvasWidth * 0.055 * cfg.posSubHeadline.scale :=
      mul_pos (by rw [canvasWidth]; norm_num) hs
    rw [List.chain'_map]
    refine List.Chain'.imp ?_ (wrapLoop_chain _ _ _ _ _ _ _)
    intro a b hab
    rw [hab.2]
    linarith

/-- C3 witness: the theorem at the default document (sub-headline
visible, scale 1) under the zero measurement function. -/
theorem subHeadline_greedy_wrap_witness :
    defaultConfigFull.posSubHeadline.visible = true ∧
    (0 : ℚ) < defaultConfigFull.posSubHeadline.scale ∧
    (subHeadlineOpsFull measure0 defaultConfigFull = tagOps .subHeadline
      ((subWrapLines measure0 defaultConfigFull).map (fun p =>
        .fillText defaultConfigFull.colorSubHeadline
          (subFont defaultConfigFull.posSubHeadline.scale)
          "center" 0 p.1 (px defaultConfigFull.posSubHeadline.x) p.2)) ∧
    (∀ i (hi : i < (subWrapLines measure0 defaultConfigFull).length),
      ((subWrapLines measure0 defaultConfigFull).get ⟨i, hi⟩).2 =
        py defaultConfigFull.aspectRatio defaultConfigFull.posSubHeadline.y +
          i * (canvasWidth * 0.055 * defaultConfigFull.posSubHeadline.scale)) ∧
    List.Chain' (brokeAt (measure0 (subFont defaultConfigFull.posSubHeadline.scale))
      (canvasWidth * 0.85)
      (canvasWidth * 0.055 * defaultConfigFull.posSubHeadline.scale))
      (subWrapLines measure0 defaultConfigFull) ∧
    (0 < defaultConfigFull.posSubHeadline.scale →
      List.Chain' (· < ·)
        ((subWrapLines measure0 defaultConfigFull).map Prod.snd))) :=
  ⟨rfl, by norm_num [defaultConfigFull],
   subHeadline_greedy_wrap measure0 defaultConfigFull rfl⟩

end Sanskhit
